import Mathlib

set_option maxRecDepth 40000

/-!
Shallow embedding of `SnakeM1Microgame.py` (a Famicom-styled Snake game) and
verification of its specification claims.

Conventions of the embedding:
* grid cells are pairs of integers (`Cell`);
* wall-clock times are rationals (Python floats are used only for interval
  comparisons of the form `now - last < interval`, which we model exactly
  over the rationals);
* the unbounded rejection-sampling loops (`while True` with `random.randint`)
  are modelled by searching a finite list of random candidates supplied by an
  oracle: finding no admissible candidate (which corresponds to the Python
  loop not terminating on that random stream) yields `none`;
* exceptions are modelled with `Except`, and a Python function that may raise
  returns `Except String _`.
-/

/-- `WINDOW_SIZE = 256` (Famicom resolution). -/
def WINDOW_SIZE : Int := 256

/-- `GRID_SIZE = 8` (8x8 pixel tiles). -/
def GRID_SIZE : Int := 8

/-- `GRID_COUNT = WINDOW_SIZE // GRID_SIZE = 32`. -/
def GRID_COUNT : Int := WINDOW_SIZE / GRID_SIZE

/-- `FPS = 60`. -/
def FPS : Nat := 60

/-- `MOVE_INTERVAL = 0.1` (snake moves every 100 ms). -/
def MOVE_INTERVAL : ℚ := 1 / 10

/-- `DIFFICULTY_SPEEDS`: the dictionary mapping each difficulty name to a
movement-interval duration (seconds). -/
def DIFFICULTY_SPEEDS : List (String × ℚ) :=
  [("Easy", 15 / 100), ("Normal", 1 / 10), ("Hard", 7 / 100), ("Expert", 5 / 100)]

/-- Value lookup in `DIFFICULTY_SPEEDS` (Python dictionary access). -/
def difficulty_speed (d : String) : ℚ :=
  (((DIFFICULTY_SPEEDS.find? (fun p => p.1 = d)).map (fun p => p.2)).getD 0)

/-- A grid cell: an integer pair `(x, y)`. -/
abbrev Cell := Int × Int

/-- The wall-collision test of `Snake.move` (lines 226-227): the new head is on
a border cell when a coordinate is `< 1` or `>= GRID_COUNT - 1`. -/
def wall_hit (c : Cell) : Bool :=
  c.1 < 1 || GRID_COUNT - 1 ≤ c.1 || c.2 < 1 || GRID_COUNT - 1 ≤ c.2

/-- The `Snake` entity (class `Snake`). -/
structure Snake where
  body : List Cell
  direction : Int × Int
  grow : Bool
  moved_this_frame : Bool
  last_move_time : ℚ
  next_direction : Option (Int × Int)
  dead : Bool
  shield_active : Bool
  speed_multiplier : ℚ
  score_multiplier : Int
deriving Repr, DecidableEq

/-- `Snake.__init__`: length-1 body centered on the grid, facing right;
`last_move_time = time()` is the creation time `t`. -/
def Snake.init (t : ℚ) : Snake :=
  { body := [(GRID_COUNT / 2, GRID_COUNT / 2)]
    direction := (1, 0)
    grow := false
    moved_this_frame := false
    last_move_time := t
    next_direction := none
    dead := false
    shield_active := false
    speed_multiplier := 1
    score_multiplier := 1 }

/-- `Snake._wrap_position` (lines 257-263): the two `if` statements per axis
are sequential, exactly as in the source. -/
def Snake.wrap_position (pos : Cell) : Cell :=
  let x := pos.1
  let y := pos.2
  let x := if x < 1 then GRID_COUNT - 2 else x
  let x := if GRID_COUNT - 1 ≤ x then 1 else x
  let y := if y < 1 then GRID_COUNT - 2 else y
  let y := if GRID_COUNT - 1 ≤ y then 1 else y
  (x, y)

/-- Lines 215-220 of `Snake.move`: commit the buffered direction unless it is
the exact reverse of the current one; the buffer is cleared regardless. -/
def commit_direction (s : Snake) : Snake :=
  match s.next_direction with
  | some nd =>
    if s.direction.1 + nd.1 ≠ 0 ∨ s.direction.2 + nd.2 ≠ 0 then
      { s with direction := nd, next_direction := none }
    else
      { s with next_direction := none }
  | none => s

/-- Lines 237-250 of `Snake.move`: self-collision check, then prepend the new
head, pop the tail unless growing, and stamp `last_move_time`. -/
def finish_move (s : Snake) (new_head : Cell) (t : ℚ) : Bool × Snake :=
  if new_head ∈ s.body then
    (false, { s with dead := true })
  else
    let body2 := new_head :: s.body
    let s2 :=
      if ¬ s.grow then { s with body := body2.dropLast }
      else { s with body := body2, grow := false }
    (true, { s2 with last_move_time := t })

/-- Lines 222-223 of `Snake.move`: the candidate new head, computed after the
buffered direction (if any) has been committed. -/
def next_head (s : Snake) : Cell :=
  let s1 := commit_direction s
  let head := s1.body.headD (0, 0)
  (head.1 + s1.direction.1, head.2 + s1.direction.2)

/-- `Snake.move(current_time)` (lines 204-250).  The return value is the
boolean the Python method returns (`false` exactly when the snake is dead),
paired with the updated snake. -/
def Snake.move (s : Snake) (current_time : ℚ) : Bool × Snake :=
  if s.dead then (false, s)
  else if current_time - s.last_move_time < MOVE_INTERVAL / s.speed_multiplier then
    (true, s)
  else
    let s1 := commit_direction s
    let new_head : Cell := next_head s
    if wall_hit new_head then
      if s1.shield_active then
        finish_move { s1 with shield_active := false } (Snake.wrap_position new_head) current_time
      else
        (false, { s1 with dead := true })
    else
      finish_move s1 new_head current_time

/-- `Snake.change_direction(new_direction)` (lines 252-255). -/
def Snake.change_direction (s : Snake) (nd : Int × Int) : Snake :=
  if s.direction.1 + nd.1 ≠ 0 ∨ s.direction.2 + nd.2 ≠ 0 then
    { s with next_direction := some nd }
  else s

/-- The power-up kinds (class `PowerUpType`, lines 86-90). -/
inductive PowerUpType where
  | SPEED
  | SHIELD
  | SCORE
  | SHRINK
deriving Repr, DecidableEq

/-- Class `PowerUp` (lines 92-98): `duration = 10 * FPS`, `active = False`,
`timer = 0` at construction. -/
structure PowerUp where
  position : Cell
  type : PowerUpType
  duration : Nat := 10 * FPS
  active : Bool := false
  timer : Nat := 0
deriving Repr, DecidableEq

/-- `PowerUp.__init__(position, type)`. -/
def PowerUp.init (position : Cell) (type : PowerUpType) : PowerUp :=
  { position := position, type := type }

/-- The all-zero high-score table that `Settings._load_high_scores` falls back
to when the store file is missing or unreadable (lines 113-118). -/
def default_high_scores : List (String × Int) :=
  [("Easy", 0), ("Normal", 0), ("Hard", 0), ("Expert", 0)]

/-- Python dictionary read `high_scores[difficulty]` on the score table. -/
def lookup_score (hs : List (String × Int)) (d : String) : Int :=
  (((hs.find? (fun p => p.1 = d)).map (fun p => p.2)).getD 0)

/-- Python dictionary write `high_scores[difficulty] = score`. -/
def set_score (hs : List (String × Int)) (d : String) (v : Int) : List (String × Int) :=
  hs.map (fun p => if p.1 = d then (p.1, v) else p)

/-- `Settings.save_high_score(score)` (lines 120-126).  The body performs a
file write (`open` + `json.dump`) with no exception handler; the outcome of
that external write is the `write_result` argument, and a raised exception
propagates out of the method, which the `Except` result models. -/
def Settings.save_high_score (write_result : Except String Unit)
    (hs : List (String × Int)) (difficulty : String) (score : Int) :
    Except String (List (String × Int) × Bool) :=
  if lookup_score hs difficulty < score then
    let hs2 := set_score hs difficulty score
    match write_result with
    | Except.ok _ => Except.ok (hs2, true)
    | Except.error e => Except.error e
  else
    Except.ok (hs, false)

/-- The top-level handler of `__main__` (lines 605-612): an exception escaping
`Game.run` is printed and the process exits with code 1; a normal quit exits
with code 0. -/
def main_exit_code (r : Except String Unit) : Nat :=
  match r with
  | Except.ok _ => 0
  | Except.error _ => 1

/-- Class `GameState` (lines 78-84). -/
def GameState.TITLE : Nat := 0

/-- `GameState.PLAYING = 1`. -/
def GameState.PLAYING : Nat := 1

/-- `GameState.GAME_OVER = 5`. -/
def GameState.GAME_OVER : Nat := 5

/-- The mutable state of class `Game` that the per-tick update touches
(lines 305-318): game-state tag, snake, food, score, live power-ups, spawn
timer, the one-shot high-score flag, and the settings fields it reads
(difficulty, high-score table). -/
structure Game where
  state : Nat
  snake : Snake
  food : Cell
  score : Int
  power_ups : List PowerUp
  power_up_spawn_timer : Nat
  high_score : Bool
  difficulty : String
  high_scores : List (String × Int)
deriving Repr, DecidableEq

/-- `Game._start_new_game` (lines 370-378): the initial food cell is drawn by
`random.randint(1, GRID_COUNT-2)` twice with no occupancy check; the random
outcome is the `food_pos` argument. -/
def Game.start_new_game (t : ℚ) (food_pos : Cell) (difficulty : String)
    (hs : List (String × Int)) : Game :=
  { state := GameState.PLAYING
    snake := Snake.init t
    food := food_pos
    score := 0
    power_ups := []
    power_up_spawn_timer := 0
    high_score := false
    difficulty := difficulty
    high_scores := hs }

/-- `Game._apply_power_up(power_up)` (lines 507-518): returns the updated snake
and the updated power-up object (SPEED and SCORE set its `active` flag). -/
def Game.apply_power_up (sn : Snake) (pu : PowerUp) : Snake × PowerUp :=
  match pu.type with
  | PowerUpType.SPEED => ({ sn with speed_multiplier := 3 / 2 }, { pu with active := true })
  | PowerUpType.SHIELD => ({ sn with shield_active := true }, pu)
  | PowerUpType.SCORE => ({ sn with score_multiplier := 2 }, { pu with active := true })
  | PowerUpType.SHRINK =>
    (if 3 < sn.body.length then { sn with body := sn.body.dropLast.dropLast } else sn, pu)

/-- `Game._update_power_ups` (lines 520-529): iterate over a copy of the list;
every `active` power-up has its timer incremented, and on reaching its duration
the corresponding snake multiplier is reverted and the power-up is removed. -/
def Game.update_power_ups (sn : Snake) (pus : List PowerUp) : Snake × List PowerUp :=
  pus.foldl
    (fun acc pu =>
      if pu.active then
        let pu2 := { pu with timer := pu.timer + 1 }
        if pu2.duration ≤ pu2.timer then
          match pu2.type with
          | PowerUpType.SPEED => ({ acc.1 with speed_multiplier := 1 }, acc.2)
          | PowerUpType.SCORE => ({ acc.1 with score_multiplier := 1 }, acc.2)
          | _ => (acc.1, acc.2)
        else (acc.1, acc.2 ++ [pu2])
      else (acc.1, acc.2 ++ [pu]))
    (sn, [])

/-- The power-up collection loop of `Game._update_game` (lines 482-485):
iterate over a copy of the list; every power-up whose position equals
`snake.body[0]` is applied and removed. -/
def Game.collect_power_ups (sn : Snake) (pus : List PowerUp) : Snake × List PowerUp :=
  pus.foldl
    (fun acc pu =>
      if acc.1.body.headD (0, 0) = pu.position then
        ((Game.apply_power_up acc.1 pu).1, acc.2)
      else (acc.1, acc.2 ++ [pu]))
    (sn, [])

/-- The rejection-sampling loop of `Game._spawn_power_up` (lines 499-502):
the first random candidate not on the snake body and not equal to the food
cell; `none` models the `while True` loop exhausting its random stream. -/
def Game.spawn_position (cands : List Cell) (body : List Cell) (food : Cell) : Option Cell :=
  cands.find? (fun p => ¬ (p ∈ body) ∧ p ≠ food)

/-- The rejection-sampling loop of the food-relocation block in
`Game._update_game` (lines 492-496): the first random candidate not on the
snake body. -/
def Game.relocate_food (cands : List Cell) (body : List Cell) : Option Cell :=
  cands.find? (fun c => ¬ (c ∈ body))

/-- The random outcomes one call of `Game._update_game` can consume: the
wall-clock time `time()` read at the top, the candidate stream and kind for
`_spawn_power_up`, and the candidate stream for food relocation. -/
structure TickInput where
  now : ℚ
  spawnCands : List Cell
  spawnKind : PowerUpType
  foodCands : List Cell
deriving Repr

/-- Lines 470-473 of `Game._update_game`: increment the spawn timer; when it
reaches `FPS * 15` (15 seconds of frames), spawn one power-up and reset the
timer.  `none` models a nonterminating rejection-sampling loop. -/
def Game.spawn_step (g : Game) (cands : List Cell) (kind : PowerUpType) : Option Game :=
  let t1 := g.power_up_spawn_timer + 1
  if FPS * 15 ≤ t1 then
    match Game.spawn_position cands g.snake.body g.food with
    | some pos =>
      some { g with power_ups := g.power_ups ++ [PowerUp.init pos kind]
                    power_up_spawn_timer := 0 }
    | none => none
  else some { g with power_up_spawn_timer := t1 }

/-- Lines 476-479 of `Game._update_game`: on death, persist the high score
once (write modelled as succeeding) and transition to GAME_OVER. -/
def Game.death_step (g : Game) : Game :=
  let g4 :=
    if g.high_score = false then
      match Settings.save_high_score (Except.ok ()) g.high_scores g.difficulty g.score with
      | Except.ok (hs2, flag) => { g with high_scores := hs2, high_score := flag }
      | Except.error _ => g
    else g
  { g4 with state := GameState.GAME_OVER }

/-- Lines 487-496 of `Game._update_game`: if the head reached the food, set
the growth flag, add the score multiplier to the score, and relocate the food
to the first random interior candidate off the snake body. -/
def Game.food_step (g : Game) (cands : List Cell) : Option Game :=
  if g.snake.body.headD (0, 0) = g.food then
    let sn6 := { g.snake with grow := true }
    let sc6 := g.score + 1 * sn6.score_multiplier
    match Game.relocate_food cands sn6.body with
    | some nf => some { g with snake := sn6, score := sc6, food := nf }
    | none => none
  else some g

/-- `Game._update_game` (lines 463-496), one simulation tick while PLAYING:
power-up expiry pass, spawn-timer increment and possible spawn, snake move
(with high-score persistence and transition to GAME_OVER on death), power-up
collection, and the food check with relocation. -/
def Game.update_game (g : Game) (inp : TickInput) : Option Game :=
  let snpus := Game.update_power_ups g.snake g.power_ups
  let g1 := { g with snake := snpus.1, power_ups := snpus.2 }
  match Game.spawn_step g1 inp.spawnCands inp.spawnKind with
  | none => none
  | some g2 =>
    let mv := g2.snake.move inp.now
    if mv.1 = false then
      some (Game.death_step { g2 with snake := mv.2 })
    else
      let snpus2 := Game.collect_power_ups mv.2 g2.power_ups
      let g5 := { g2 with snake := snpus2.1, power_ups := snpus2.2 }
      Game.food_step g5 inp.foodCands

/-- The per-frame dispatch of `Game.run` (lines 424-453): `_update_game` runs
only in the PLAYING state; other states leave the game simulation untouched. -/
def Game.tick (g : Game) (inp : TickInput) : Option Game :=
  if g.state = GameState.PLAYING then Game.update_game g inp else some g

/-- A sequence of frames of the `Game.run` loop, fed one `TickInput` each. -/
def Game.runTicks (g : Game) (inps : List TickInput) : Option Game :=
  match inps with
  | [] => some g
  | i :: rest =>
    match Game.tick g i with
    | some g2 => Game.runTicks g2 rest
    | none => none

/-- A procedurally generated sound: the stereo sample frames the Tone
Synthesizer produced for it (each frame one `(left, right)` pair of 16-bit
values). -/
structure Sound where
  samples : List (Int × Int)
deriving Repr, DecidableEq

/-- A handle for the `pygame.mixer.Channel` object that `sound.play()`
returns. -/
def Channel := Nat

/-- Behaviour of the external call on line 72, `pygame.sndarray.samples`,
on the value the source passes it: `sndarray.samples` reads the sample buffer
of a `Sound` object, but line 72 passes it the `Channel` returned by
`sound.play()`, which has no sample buffer, so the call raises `TypeError`
(caught by the handler on line 74). -/
def samples_of_channel_actual : Channel → Except String (List (Int × Int)) :=
  fun _ => Except.error "TypeError: sound must be a Sound object"

/-- `play_sound(sound, recording_buffer)` (lines 64-75): when audio is enabled
and the sound is non-null, dispatch it (obtaining `channel`); when recording
is enabled, a buffer was passed and a channel was obtained, append the result
of `pygame.sndarray.samples(channel)` to the buffer; any exception is caught,
leaving the buffer as it was.  The behaviour of the external
`pygame.sndarray.samples` call is the `samples_of_channel` argument. -/
def play_sound (audio_enabled recording_enabled : Bool) (sound : Option Sound)
    (channel : Option Channel)
    (samples_of_channel : Channel → Except String (List (Int × Int)))
    (buffer : List (List (Int × Int))) : List (List (Int × Int)) :=
  if audio_enabled ∧ sound.isSome then
    if recording_enabled then
      match channel with
      | some ch =>
        match samples_of_channel ch with
        | Except.ok arr => buffer ++ [arr]
        | Except.error _ => buffer
      | none => buffer
    else buffer
  else buffer

/-- `Game.save_recording` (lines 577-602): with an empty capture buffer no
file is written (`none`); otherwise the captured chunks are concatenated in
arrival order into one stereo 16-bit file whose frames are the result. -/
def save_recording (buffer : List (List (Int × Int))) : Option (List (Int × Int)) :=
  if buffer.isEmpty then none else some buffer.flatten

/-- The operations through which the game mutates its snake: a buffered
direction change (`Snake.change_direction`), a movement tick (`Snake.move`),
a collected power-up (`Game._apply_power_up`), and the growth flag set by the
food check (`self.snake.grow = True`, line 489). -/
inductive SnakeOp where
  | changeDir : Int × Int → SnakeOp
  | moveAt : ℚ → SnakeOp
  | applyPU : PowerUp → SnakeOp
  | eatFood : SnakeOp

/-- Run one snake operation. -/
def SnakeOp.apply (s : Snake) : SnakeOp → Snake
  | SnakeOp.changeDir d => s.change_direction d
  | SnakeOp.moveAt t => (s.move t).2
  | SnakeOp.applyPU pu => (Game.apply_power_up s pu).1
  | SnakeOp.eatFood => { s with grow := true }

/-- Whether an operation applies a Shield power-up (the only code that sets
`shield_active` to `True`, line 512). -/
def SnakeOp.applies_shield : SnakeOp → Bool
  | SnakeOp.applyPU pu => pu.type = PowerUpType.SHIELD
  | _ => false

/-- A PLAYING-state game with no live power-ups, given by its remaining
fields. -/
def Game.mkPlaying (sn : Snake) (fd : Cell) (sc : Int) (tmr : Nat) (hsf : Bool)
    (diff : String) (hss : List (String × Int)) : Game :=
  ⟨GameState.PLAYING, sn, fd, sc, [], tmr, hsf, diff, hss⟩

/-- A length-4 snake (straight horizontal body), used to exercise the Shrink
boundary. -/
def c2_snake : Snake :=
  { Snake.init 0 with body := [(4, 16), (5, 16), (6, 16), (7, 16)] }

/-- A Shrink power-up. -/
def c2_pu : PowerUp := PowerUp.init (9, 9) PowerUpType.SHRINK

/-- A shielded snake whose body already occupies `(1, 16)`, the cell a
right-edge wall violation wraps to. -/
def c6_bad_snake : Snake :=
  { Snake.init 0 with body := [(30, 16), (1, 16)], shield_active := true }

/-- A shielded length-1 snake at the right interior edge. -/
def c6_good_snake : Snake :=
  { Snake.init 0 with body := [(30, 16)], shield_active := true }

/-- A fresh game whose initial food is at `(17, 16)`, directly in front of the
snake. -/
def c9_game : Game := Game.start_new_game 0 (17, 16) "Normal" default_high_scores

/-- One tick input: enough time has passed for a move; the food-relocation
stream offers `(20, 20)`. -/
def c9_input : TickInput :=
  { now := 1, spawnCands := [], spawnKind := PowerUpType.SHIELD, foodCands := [(20, 20)] }

/-- The game state after `c9_game` ticks on `c9_input`: the snake ate the food
and the food moved to `(20, 20)`. -/
def c9_result : Game :=
  { state := GameState.PLAYING
    snake :=
      { body := [(17, 16)]
        direction := (1, 0)
        grow := true
        moved_this_frame := false
        last_move_time := 1
        next_direction := none
        dead := false
        shield_active := false
        speed_multiplier := 1
        score_multiplier := 1 }
    food := (20, 20)
    score := 1
    power_ups := []
    power_up_spawn_timer := 1
    high_score := false
    difficulty := "Normal"
    high_scores := default_high_scores }

/-- A fresh game with food away from the snake's path (claim C1 trace). -/
def c1_start : Game := Game.start_new_game 0 (5, 5) "Normal" default_high_scores

/-- A tick during which no wall-clock time has elapsed, so the snake does not
advance; the spawn timer still counts the frame. -/
def c1_noop : TickInput :=
  { now := 0, spawnCands := [], spawnKind := PowerUpType.SPEED, foodCands := [] }

/-- Tick 900: the spawn timer fires; a Speed power-up appears at `(17, 16)`,
one second has elapsed, the snake advances onto it and collects it. -/
def c1_collect : TickInput :=
  { now := 1, spawnCands := [(17, 16)], spawnKind := PowerUpType.SPEED, foodCands := [] }

/-- A tick at the same wall-clock instant as the collection tick: the snake
does not advance again. -/
def c1_wait : TickInput :=
  { now := 1, spawnCands := [], spawnKind := PowerUpType.SPEED, foodCands := [] }

/-- 899 idle frames, then the spawn-and-collect frame, then 600 more frames —
600 being the power-up `duration` (10 seconds at 60 FPS). -/
def c1_trace : List TickInput :=
  List.replicate 899 c1_noop ++ (c1_collect :: List.replicate 600 c1_wait)

/-- `c1_start` after 899 idle frames. -/
def c1_mid : Game := { c1_start with power_up_spawn_timer := 899 }

/-- `c1_mid` after the spawn-and-collect frame: the Speed power-up was applied
(multiplier 1.5) and removed from `power_ups`, so no expiry timer is ticking
anywhere. -/
def c1_collected : Game :=
  { state := GameState.PLAYING
    snake :=
      { body := [(17, 16)]
        direction := (1, 0)
        grow := false
        moved_this_frame := false
        last_move_time := 1
        next_direction := none
        dead := false
        shield_active := false
        speed_multiplier := 3 / 2
        score_multiplier := 1 }
    food := (5, 5)
    score := 0
    power_ups := []
    power_up_spawn_timer := 0
    high_score := false
    difficulty := "Normal"
    high_scores := default_high_scores }

/-- A fresh game whose initial food is at `(17, 16)`, directly in front of the
snake (claim C10 trace). -/
def c10_start : Game := Game.start_new_game 0 (17, 16) "Normal" default_high_scores

/-- An idle frame for the C10 trace. -/
def c10_noop : TickInput :=
  { now := 0, spawnCands := [], spawnKind := PowerUpType.SHIELD, foodCands := [] }

/-- Tick 900: the spawn timer fires and a Shield power-up appears at
`(18, 16)`; the snake advances onto the food at `(17, 16)` and the
food-relocation stream offers `(18, 16)` — the power-up's own cell, which the
relocation check (snake body only) accepts. -/
def c10_last : TickInput :=
  { now := 1, spawnCands := [(18, 16)], spawnKind := PowerUpType.SHIELD,
    foodCands := [(18, 16)] }

/-- 899 idle frames, then the spawn-eat-relocate frame. -/
def c10_trace : List TickInput := List.replicate 899 c10_noop ++ [c10_last]

/-- The final state of the C10 trace: the food sits on the live power-up. -/
def c10_final : Game :=
  { state := GameState.PLAYING
    snake :=
      { body := [(17, 16)]
        direction := (1, 0)
        grow := true
        moved_this_frame := false
        last_move_time := 1
        next_direction := none
        dead := false
        shield_active := false
        speed_multiplier := 1
        score_multiplier := 1 }
    food := (18, 16)
    score := 1
    power_ups := [PowerUp.init (18, 16) PowerUpType.SHIELD]
    power_up_spawn_timer := 0
    high_score := false
    difficulty := "Normal"
    high_scores := default_high_scores }

/-- Claim C2, counterexample: with a body of length 4 the resulting length
would be 2 < 3, so the claim says Shrink leaves the body unchanged; the code
(`if len(self.snake.body) > 3`) truncates it to length 2. -/
theorem c2_counterexample :
    c2_snake.body.length = 4 ∧
    (Game.apply_power_up c2_snake c2_pu).1.body = [(4, 16), (5, 16)] ∧
    (Game.apply_power_up c2_snake c2_pu).1.body ≠ c2_snake.body := by
  refine ⟨by decide, by decide, by decide⟩

/-- Claim C3 (code bug): with difficulty "Easy" the table maps to a 0.15 s
movement interval, so by the claim `move` at an elapsed time of 0.12 s is a
no-op; the code compares against the fixed `MOVE_INTERVAL = 0.1` (the
`DIFFICULTY_SPEEDS` values are never read by `Snake.move`), so the snake
advances. -/
theorem c3_difficulty_interval_unused :
    difficulty_speed "Easy" = 15 / 100 ∧
    (12 / 100 : ℚ) < difficulty_speed "Easy" ∧
    ((Snake.init 0).move (12 / 100)).2.body = [(17, 16)] ∧
    ((Snake.init 0).move (12 / 100)).2.body ≠ (Snake.init 0).body := by
  refine ⟨by with_unfolding_all decide, by with_unfolding_all decide,
    by with_unfolding_all decide, by with_unfolding_all decide⟩

/-- Claim C4, counterexample: a failing high-score file write is not caught in
`save_high_score` — the call propagates the error — and the only handler is
the top-level one of `__main__`, which exits the process with code 1. -/
theorem c4_counterexample :
    Settings.save_high_score (Except.error "disk full") default_high_scores "Normal" 10
      = Except.error "disk full" ∧
    main_exit_code (Except.error "disk full") = 1 := by
  refine ⟨rfl, rfl⟩

/-- Claim C6, counterexample to "the snake stays alive": the shielded snake's
wall violation at `(31, 16)` wraps to `(1, 16)`, which its own body occupies,
so the subsequent self-collision check kills it (with the shield consumed). -/
theorem c6_counterexample :
    c6_bad_snake.shield_active = true ∧
    wall_hit (next_head c6_bad_snake) = true ∧
    Snake.wrap_position (next_head c6_bad_snake) ∈ c6_bad_snake.body ∧
    (c6_bad_snake.move 1).1 = false ∧
    (c6_bad_snake.move 1).2.dead = true ∧
    (c6_bad_snake.move 1).2.shield_active = false := by
  refine ⟨rfl, by decide, by decide, by with_unfolding_all decide,
    by with_unfolding_all decide, by with_unfolding_all decide⟩

/-- Claim C7 (code bug): with audio on and capture on, playing two sounds
appends nothing to the capture buffer — `pygame.sndarray.samples` is passed
the `Channel` instead of the `Sound`, raises, and the handler swallows the
error — so toggling capture off finds an empty buffer and writes no file. -/
theorem c7_capture_records_nothing (s1 s2 : Sound) (ch1 ch2 : Channel) :
    play_sound true true (some s2) (some ch2) samples_of_channel_actual
      (play_sound true true (some s1) (some ch1) samples_of_channel_actual []) = [] ∧
    save_recording
      (play_sound true true (some s2) (some ch2) samples_of_channel_actual
        (play_sound true true (some s1) (some ch1) samples_of_channel_actual [])) = none := by
  refine ⟨rfl, rfl⟩

/-- Claim C8: `change_direction(d)` buffers `d` — overwriting any pending
buffered direction — if and only if `d` is not the exact component-wise
opposite of the current committed direction; a reverse input changes neither
the committed direction nor the buffer.  (The code's guard
`direction[0]+d[0] != 0 or direction[1]+d[1] != 0` holds exactly when
`d ≠ -direction`.) -/
theorem c8_change_direction_buffers_iff (s : Snake) (d : Int × Int) :
    (s.change_direction d).direction = s.direction ∧
    (s.change_direction d).next_direction =
      (if d = (-s.direction.1, -s.direction.2) then s.next_direction else some d) := by
  obtain ⟨dx, dy⟩ := d
  unfold Snake.change_direction
  by_cases h : (dx, dy) = (-s.direction.1, -s.direction.2)
  · rw [Prod.mk.injEq] at h
    have hc : ¬ (s.direction.1 + dx ≠ 0 ∨ s.direction.2 + dy ≠ 0) := by omega
    rw [if_neg hc, if_pos (by rw [Prod.mk.injEq]; omega)]
    exact ⟨rfl, rfl⟩
  · rw [Prod.mk.injEq] at h
    have hc : s.direction.1 + dx ≠ 0 ∨ s.direction.2 + dy ≠ 0 := by omega
    rw [if_pos hc, if_neg (by rw [Prod.mk.injEq]; omega)]
    exact ⟨rfl, rfl⟩

/-- Claim C2, amended: Shrink removes exactly 2 tail cells when the current
body length exceeds 3 (so the resulting length is at least 2), is a no-op when
the length is at most 3, and is instantaneous — the snake and power-up are
otherwise untouched (no `active` flag, no timer). -/
theorem c2_amended_shrink (sn : Snake) (pu : PowerUp)
    (h : pu.type = PowerUpType.SHRINK) :
    (Game.apply_power_up sn pu).2 = pu ∧
    (3 < sn.body.length →
      (Game.apply_power_up sn pu).1 = { sn with body := sn.body.dropLast.dropLast } ∧
      (Game.apply_power_up sn pu).1.body.length + 2 = sn.body.length) ∧
    (sn.body.length ≤ 3 → (Game.apply_power_up sn pu).1 = sn) := by
  unfold Game.apply_power_up
  rw [h]
  refine ⟨rfl, fun hlen => ?_, fun hlen => ?_⟩
  · rw [if_pos hlen]
    refine ⟨rfl, ?_⟩
    simp only [List.length_dropLast]
    omega
  · rw [if_neg (by omega)]

/-- Witness for `c2_amended_shrink`: Shrink on the fresh length-1 snake is a
no-op. -/
theorem c2_amended_shrink_witness :
    c2_pu.type = PowerUpType.SHRINK ∧
    (Snake.init 0).body.length ≤ 3 ∧
    (Game.apply_power_up (Snake.init 0) c2_pu).1 = Snake.init 0 :=
  ⟨rfl, by decide, (c2_amended_shrink (Snake.init 0) c2_pu rfl).2.2 (by decide)⟩

/-- Claim C4, amended: when the current score beats the stored best and the
high-score file write fails, the exception propagates out of
`save_high_score` (there is no handler in the method or in any caller below
`__main__`), and the top-level handler exits the process with code 1 — the
game does not keep running. -/
theorem c4_amended_write_failure_propagates (hs : List (String × Int))
    (d : String) (score : Int) (e : String)
    (h : lookup_score hs d < score) :
    Settings.save_high_score (Except.error e) hs d score = Except.error e ∧
    main_exit_code (Except.error e) = 1 := by
  unfold Settings.save_high_score
  rw [if_pos h]
  exact ⟨rfl, rfl⟩

/-- Witness for `c4_amended_write_failure_propagates` at score 10 on "Normal"
over the all-zero table. -/
theorem c4_amended_witness :
    lookup_score default_high_scores "Normal" < 10 ∧
    Settings.save_high_score (Except.error "disk full") default_high_scores "Normal" 10
      = Except.error "disk full" :=
  ⟨by decide,
   (c4_amended_write_failure_propagates default_high_scores "Normal" 10 "disk full"
      (by decide)).1⟩

/-- `commit_direction` only touches the direction fields. -/
theorem commit_direction_body (s : Snake) : (commit_direction s).body = s.body := by
  unfold commit_direction
  split
  · split <;> rfl
  · rfl

/-- `commit_direction` does not touch the shield flag. -/
theorem commit_direction_shield (s : Snake) :
    (commit_direction s).shield_active = s.shield_active := by
  unfold commit_direction
  split
  · split <;> rfl
  · rfl

/-- `finish_move` keeps the body duplicate-free. -/
theorem finish_move_body_nodup (s : Snake) (nh : Cell) (t : ℚ)
    (h : s.body.Nodup) : ((finish_move s nh t).2).body.Nodup := by
  unfold finish_move
  by_cases hmem : nh ∈ s.body
  · rw [if_pos hmem]
    exact h
  · rw [if_neg hmem]
    by_cases hg : s.grow
    · simp only [hg, not_true_eq_false, if_false]
      exact List.nodup_cons.mpr ⟨hmem, h⟩
    · simp only [hg, not_false_eq_true, if_true]
      exact (List.dropLast_sublist (nh :: s.body)).nodup (List.nodup_cons.mpr ⟨hmem, h⟩)

/-- `finish_move` never sets the shield flag. -/
theorem finish_move_shield (s : Snake) (nh : Cell) (t : ℚ) :
    ((finish_move s nh t).2).shield_active = s.shield_active := by
  unfold finish_move
  by_cases hmem : nh ∈ s.body
  · rw [if_pos hmem]
  · rw [if_neg hmem]
    by_cases hg : s.grow <;> simp [hg]

/-- `Snake.move` keeps the body duplicate-free: a move that would duplicate a
cell is rejected by the self-collision check (the snake dies with its body
unchanged), and an alive move prepends a fresh head. -/
theorem move_body_nodup (s : Snake) (t : ℚ) (h : s.body.Nodup) :
    ((s.move t).2).body.Nodup := by
  unfold Snake.move
  by_cases hd : s.dead
  · rw [if_pos hd]; exact h
  · rw [if_neg hd]
    by_cases hi : t - s.last_move_time < MOVE_INTERVAL / s.speed_multiplier
    · rw [if_pos hi]; exact h
    · rw [if_neg hi]
      simp only
      have hb : (commit_direction s).body = s.body := commit_direction_body s
      by_cases hw : wall_hit (next_head s) = true
      · rw [if_pos hw]
        by_cases hs : (commit_direction s).shield_active = true
        · rw [if_pos hs]
          apply finish_move_body_nodup
          simpa [hb] using h
        · rw [if_neg hs]
          simpa [hb] using h
      · rw [if_neg hw]
        apply finish_move_body_nodup
        simpa [hb] using h

/-- Every snake operation keeps the body duplicate-free (Shrink truncates to a
sublist; the other power-ups and the growth flag leave the body alone). -/
theorem apply_op_body_nodup (s : Snake) (op : SnakeOp) (h : s.body.Nodup) :
    (SnakeOp.apply s op).body.Nodup := by
  cases op with
  | changeDir d =>
    simp only [SnakeOp.apply]
    unfold Snake.change_direction
    split <;> exact h
  | moveAt t =>
    simp only [SnakeOp.apply]
    exact move_body_nodup s t h
  | applyPU pu =>
    obtain ⟨pos, ty, dur, act, tm⟩ := pu
    simp only [SnakeOp.apply]
    unfold Game.apply_power_up
    cases ty
    · exact h
    · exact h
    · exact h
    · by_cases hlen : 3 < s.body.length
      · simp only [if_pos hlen]
        exact ((List.dropLast_sublist _).trans (List.dropLast_sublist _)).nodup h
      · simp only [if_neg hlen]
        exact h
  | eatFood =>
    simp only [SnakeOp.apply]
    exact h

/-- Body uniqueness is preserved along any operation sequence. -/
theorem foldl_apply_body_nodup (ops : List SnakeOp) :
    ∀ s : Snake, s.body.Nodup → (ops.foldl SnakeOp.apply s).body.Nodup := by
  induction ops with
  | nil => intro s h; exact h
  | cons op rest ih =>
    intro s h
    exact ih (SnakeOp.apply s op) (apply_op_body_nodup s op h)

/-- Claim C5: starting from the fresh snake of a new game, no sequence of
direction inputs, movement ticks, power-up applications (including Shrink and
shield-assisted wraps inside `move`) and growth flags ever puts a duplicate
cell in the body. -/
theorem c5_body_never_duplicates (ops : List SnakeOp) (t0 : ℚ) :
    (ops.foldl SnakeOp.apply (Snake.init t0)).body.Nodup :=
  foldl_apply_body_nodup ops (Snake.init t0) (by simp [Snake.init])

/-- `finish_move` reports alive exactly when the new head misses the body. -/
theorem finish_move_fst (s : Snake) (nh : Cell) (t : ℚ) :
    (finish_move s nh t).1 = true ↔ nh ∉ s.body := by
  unfold finish_move
  by_cases hm : nh ∈ s.body
  · rw [if_pos hm]
    simp [hm]
  · rw [if_neg hm]
    simp [hm]

/-- `finish_move` on a head that hits the body marks the snake dead and
changes nothing else. -/
theorem finish_move_of_mem (s : Snake) (nh : Cell) (t : ℚ) (hm : nh ∈ s.body) :
    finish_move s nh t = (false, { s with dead := true }) := by
  unfold finish_move
  rw [if_pos hm]

/-- After a successful `finish_move` the head is the new head. -/
theorem finish_move_head (s : Snake) (nh : Cell) (t : ℚ)
    (hm : nh ∉ s.body) (hb : s.body ≠ []) :
    ((finish_move s nh t).2).body.headD (0, 0) = nh := by
  unfold finish_move
  rw [if_neg hm]
  by_cases hg : s.grow
  · simp [hg]
  · simp only [hg, not_false_eq_true, if_true]
    cases hbody : s.body with
    | nil => exact absurd hbody hb
    | cons a l => simp [List.dropLast]

/-- `Snake.move` never turns the shield on. -/
theorem move_shield_false (s : Snake) (t : ℚ) (hs : s.shield_active = false) :
    ((s.move t).2).shield_active = false := by
  simp only [Snake.move]
  by_cases hd : s.dead = true
  · rw [if_pos hd]; exact hs
  · rw [if_neg hd]
    by_cases hi : t - s.last_move_time < MOVE_INTERVAL / s.speed_multiplier
    · rw [if_pos hi]; exact hs
    · rw [if_neg hi]
      have hcs := commit_direction_shield s
      by_cases hw : wall_hit (next_head s) = true
      · rw [if_pos hw]
        by_cases hsa : (commit_direction s).shield_active = true
        · rw [hcs, hs] at hsa
          exact absurd hsa (by simp)
        · rw [if_neg hsa]
          show (commit_direction s).shield_active = false
          rw [hcs]; exact hs
      · rw [if_neg hw]
        rw [finish_move_shield, hcs]; exact hs

/-- No snake operation other than applying a Shield power-up can turn the
shield flag on. -/
theorem apply_op_shield_false (s : Snake) (op : SnakeOp)
    (hs : s.shield_active = false) (hop : op.applies_shield = false) :
    (SnakeOp.apply s op).shield_active = false := by
  cases op with
  | changeDir d =>
    simp only [SnakeOp.apply]
    unfold Snake.change_direction
    split <;> exact hs
  | moveAt t =>
    simp only [SnakeOp.apply]
    exact move_shield_false s t hs
  | applyPU pu =>
    obtain ⟨pos, ty, dur, act, tm⟩ := pu
    cases ty with
    | SPEED => exact hs
    | SHIELD => simp [SnakeOp.applies_shield] at hop
    | SCORE => exact hs
    | SHRINK =>
      show (if 3 < s.body.length
        then ({ s with body := s.body.dropLast.dropLast } : Snake) else s).shield_active = false
      split <;> exact hs
  | eatFood =>
    simp only [SnakeOp.apply]
    exact hs

/-- A cleared shield stays cleared across any Shield-free operation
sequence. -/
theorem foldl_shield_false (ops : List SnakeOp) :
    ∀ s : Snake, s.shield_active = false →
      (∀ op ∈ ops, op.applies_shield = false) →
      (ops.foldl SnakeOp.apply s).shield_active = false := by
  induction ops with
  | nil => intro s hs _; exact hs
  | cons op rest ih =>
    intro s hs hops
    simp only [List.foldl_cons]
    exact ih _ (apply_op_shield_false s op hs (hops op (List.mem_cons_self op rest)))
      (fun o ho => hops o (List.mem_cons_of_mem _ ho))

/-- Claim C6, amended: when a move's new head lands on a border cell with the
shield active, the shield is consumed (exactly once) and the head wraps per
axis via `Snake.wrap_position`; the snake survives the wall if and only if the
wrapped head is not already a body cell — otherwise the self-collision check
kills it, with the shield still consumed.  Without an active shield the snake
dies at the wall.  And the shield flag never turns on again without a new
Shield power-up application. -/
theorem c6_amended_shield_semantics :
    (∀ (s : Snake) (t : ℚ),
      s.dead = false →
      ¬ (t - s.last_move_time < MOVE_INTERVAL / s.speed_multiplier) →
      wall_hit (next_head s) = true →
      ((s.shield_active = true → s.body ≠ [] →
        ((s.move t).2.shield_active = false ∧
         ((s.move t).1 = true ↔ Snake.wrap_position (next_head s) ∉ s.body) ∧
         ((s.move t).1 = true →
           (s.move t).2.body.headD (0, 0) = Snake.wrap_position (next_head s)) ∧
         ((s.move t).1 = false → (s.move t).2.dead = true))) ∧
       (s.shield_active = false →
         s.move t = (false, { commit_direction s with dead := true })))) ∧
    (∀ (ops : List SnakeOp) (s : Snake),
      s.shield_active = false →
      (∀ op ∈ ops, op.applies_shield = false) →
      (ops.foldl SnakeOp.apply s).shield_active = false) := by
  constructor
  · intro s t hd hi hw
    have hcs := commit_direction_shield s
    have hcb := commit_direction_body s
    have hsb : ({ commit_direction s with shield_active := false } : Snake).body = s.body := hcb
    constructor
    · intro hs hbody
      have hmove : s.move t =
          finish_move { commit_direction s with shield_active := false }
            (Snake.wrap_position (next_head s)) t := by
        simp only [Snake.move]
        rw [if_neg (by simp [hd]), if_neg hi, if_pos hw, if_pos (by rw [hcs]; exact hs)]
      refine ⟨?_, ?_, ?_, ?_⟩
      · rw [hmove, finish_move_shield]
      · rw [hmove, finish_move_fst, hsb]
      · intro halive
        rw [hmove] at halive ⊢
        rw [finish_move_fst] at halive
        exact finish_move_head _ _ _ halive (by rw [hsb]; exact hbody)
      · intro hdead
        rw [hmove] at hdead ⊢
        have hm : Snake.wrap_position (next_head s) ∈
            ({ commit_direction s with shield_active := false } : Snake).body := by
          by_contra hnm
          have htrue := (finish_move_fst { commit_direction s with shield_active := false }
            (Snake.wrap_position (next_head s)) t).mpr hnm
          rw [hdead] at htrue
          exact Bool.false_ne_true htrue
        rw [finish_move_of_mem _ _ _ hm]
    · intro hs
      simp only [Snake.move]
      rw [if_neg (by simp [hd]), if_neg hi, if_pos hw,
        if_neg (by rw [hcs]; simp [hs])]
  · exact fun ops s hs hops => foldl_shield_false ops s hs hops

/-- Witness for `c6_amended_shield_semantics`: the shielded length-1 snake at
`(30, 16)` hits the right wall, survives by wrapping (its shield consumed),
and a shield-free operation sequence keeps the flag off. -/
theorem c6_amended_witness :
    ((c6_good_snake.move 1).2.shield_active = false ∧ (c6_good_snake.move 1).1 = true) ∧
    ([SnakeOp.eatFood].foldl SnakeOp.apply (Snake.init 0)).shield_active = false :=
  have h := (c6_amended_shield_semantics.1 c6_good_snake 1 rfl
    (by with_unfolding_all decide) (by decide)).1 rfl (by decide)
  ⟨⟨h.1, h.2.1.mpr (by decide)⟩,
   c6_amended_shield_semantics.2 [SnakeOp.eatFood] (Snake.init 0) rfl
     (by intro op hop; simp at hop; rw [hop]; rfl)⟩

/-- Claim C9: whenever a tick of `_update_game` relocates the food (the head
reached it), the new food cell comes from `random.randint(1, GRID_COUNT-2)`
on each axis — an interior, non-wall cell — and the rejection loop accepts
only cells off the snake body. -/
theorem spawn_step_food (g : Game) (cands : List Cell) (kind : PowerUpType)
    (g2 : Game) (h : Game.spawn_step g cands kind = some g2) : g2.food = g.food := by
  simp only [Game.spawn_step] at h
  split at h
  · split at h
    · injection h with h2
      rw [← h2]
    · exact absurd h (by simp)
  · injection h with h2
    rw [← h2]

/-- The death transition does not move the food. -/
theorem death_step_food (g : Game) : (Game.death_step g).food = g.food := by
  simp only [Game.death_step]
  split
  · split <;> rfl
  · rfl

/-- The food check either leaves the food where it was, or relocates it to a
candidate cell off the (post-move) snake body. -/
theorem food_step_food (g : Game) (cands : List Cell) (g2 : Game)
    (h : Game.food_step g cands = some g2) :
    g2.food = g.food ∨
      (g2.food ∈ cands ∧ g2.food ∉ g2.snake.body) := by
  simp only [Game.food_step] at h
  split at h
  · split at h
    · rename_i nf hfind
      injection h with h2
      right
      have hmem := List.find?_some hfind
      have hin := List.mem_of_find?_eq_some hfind
      simp only [decide_eq_true_eq] at hmem
      rw [← h2]
      exact ⟨hin, hmem⟩
    · exact absurd h (by simp)
  · injection h with h2
    left
    rw [← h2]

/-- Claim C9: whenever a tick of `_update_game` relocates the food (the head
reached it), the new food cell is drawn by `random.randint(1, GRID_COUNT-2)`
on each axis — an interior, non-wall cell — and the rejection loop accepts
only cells off the snake body. -/
theorem c9_food_relocation_safe (g : Game) (inp : TickInput) (g2 : Game)
    (hrange : ∀ p ∈ inp.foodCands,
      1 ≤ p.1 ∧ p.1 ≤ GRID_COUNT - 2 ∧ 1 ≤ p.2 ∧ p.2 ≤ GRID_COUNT - 2)
    (h : Game.update_game g inp = some g2) (hne : g2.food ≠ g.food) :
    wall_hit g2.food = false ∧ g2.food ∉ g2.snake.body := by
  simp only [Game.update_game] at h
  split at h
  · exact absurd h (by simp)
  · rename_i g1 heq
    have hfood1 : g1.food = g.food := by
      have h1 := spawn_step_food _ inp.spawnCands inp.spawnKind g1 heq
      exact h1
    split at h
    · injection h with h2
      exfalso
      apply hne
      rw [← h2, death_step_food]
      exact hfood1
    · rcases food_step_food _ _ _ h with hsame | ⟨hin, hnotin⟩
      · exact absurd (hsame.trans hfood1) hne
      · have hr := hrange g2.food hin
        refine ⟨?_, hnotin⟩
        simp only [wall_hit, Bool.or_eq_false_iff, decide_eq_false_iff_not, not_lt, not_le]
        refine ⟨⟨⟨?_, ?_⟩, ?_⟩, ?_⟩ <;> omega

/-- Witness for `c9_food_relocation_safe`: the fresh game eats its food on the
first move and the food relocates to `(20, 20)`. -/
theorem c9_witness :
    Game.update_game c9_game c9_input = some c9_result ∧
    c9_result.food ≠ c9_game.food ∧
    (wall_hit c9_result.food = false ∧ c9_result.food ∉ c9_result.snake.body) :=
  ⟨by with_unfolding_all decide, by decide,
   c9_food_relocation_safe c9_game c9_input c9_result
     (by
       intro p hp
       simp only [c9_input, List.mem_singleton] at hp
       subst hp
       decide)
     (by with_unfolding_all decide) (by decide)⟩

/-- `runTicks` splits over list append when the first part succeeds. -/
theorem Game.runTicks_append (g : Game) (l1 l2 : List TickInput) (g2 : Game)
    (h : Game.runTicks g l1 = some g2) :
    Game.runTicks g (l1 ++ l2) = Game.runTicks g2 l2 := by
  induction l1 generalizing g with
  | nil =>
    simp only [Game.runTicks] at h
    injection h with h2
    rw [List.nil_append, h2]
  | cons i rest ih =>
    simp only [List.cons_append, Game.runTicks] at h ⊢
    cases htick : Game.tick g i with
    | none =>
      rw [htick] at h
      exact Option.noConfusion h
    | some gm =>
      rw [htick] at h
      exact ih gm h

/-- A frame at which no wall-clock time has passed and no spawn fires: the
only change is the spawn-timer increment. -/
theorem Game.tick_noop (sn : Snake) (fd : Cell) (sc : Int) (tmr : Nat) (hsf : Bool)
    (diff : String) (hss : List (String × Int)) (now : ℚ) (kind : PowerUpType)
    (htimer : tmr + 1 < FPS * 15)
    (hmove : sn.move now = (true, sn))
    (hfood : sn.body.headD (0, 0) ≠ fd) :
    Game.tick (Game.mkPlaying sn fd sc tmr hsf diff hss) ⟨now, [], kind, []⟩
      = some (Game.mkPlaying sn fd sc (tmr + 1) hsf diff hss) := by
  unfold Game.mkPlaying Game.tick
  rw [if_pos rfl]
  unfold Game.update_game Game.update_power_ups
  simp only [List.foldl_nil]
  unfold Game.spawn_step
  simp only
  rw [if_neg (Nat.not_le.mpr htimer)]
  simp only
  rw [hmove]
  simp only [Bool.true_eq_false, if_false]
  unfold Game.collect_power_ups
  simp only [List.foldl_nil]
  unfold Game.food_step
  simp only
  rw [if_neg hfood]

/-- Idle frames accumulate only in the spawn timer. -/
theorem Game.runTicks_replicate_noop (n : Nat) :
    ∀ (sn : Snake) (fd : Cell) (sc : Int) (tmr : Nat) (hsf : Bool) (diff : String)
      (hss : List (String × Int)) (now : ℚ) (kind : PowerUpType),
    tmr + n < FPS * 15 →
    sn.move now = (true, sn) →
    sn.body.headD (0, 0) ≠ fd →
    Game.runTicks (Game.mkPlaying sn fd sc tmr hsf diff hss)
      (List.replicate n ⟨now, [], kind, []⟩)
      = some (Game.mkPlaying sn fd sc (tmr + n) hsf diff hss) := by
  induction n with
  | zero =>
    intro sn fd sc tmr hsf diff hss now kind htimer hmove hfood
    rfl
  | succ k ih =>
    intro sn fd sc tmr hsf diff hss now kind htimer hmove hfood
    rw [List.replicate_succ]
    simp only [Game.runTicks]
    rw [Game.tick_noop sn fd sc tmr hsf diff hss now kind (by omega) hmove hfood]
    have h2 := ih sn fd sc (tmr + 1) hsf diff hss now kind (by omega) hmove hfood
    have harith : tmr + 1 + k = tmr + (k + 1) := by omega
    rw [harith] at h2
    exact h2

/-- Claim C1 (code bug): in this trace a Speed power-up spawns at frame 900
and is collected the same frame (multiplier set to 1.5); because collection
removes the power-up object from `power_ups` before any expiry tick, the
expiry pass of `_update_power_ups` never sees an active power-up, and 600
further frames later — `duration` = 10 s × 60 FPS — the multiplier is still
1.5 and no effect record exists that could ever revert it. -/
theorem c1_speed_multiplier_never_reverts :
    ∃ gf : Game, Game.runTicks c1_start c1_trace = some gf ∧
      gf.snake.speed_multiplier = 3 / 2 ∧ gf.power_ups = [] := by
  have h1 : Game.runTicks c1_start (List.replicate 899 c1_noop) = some c1_mid := by
    have h := Game.runTicks_replicate_noop 899 (Snake.init 0) (5, 5) 0 0 false "Normal"
      default_high_scores 0 PowerUpType.SPEED (by decide) (by with_unfolding_all decide)
      (by decide)
    exact h
  have h2 : Game.tick c1_mid c1_collect = some c1_collected := by
    with_unfolding_all decide
  have h3 : Game.runTicks c1_collected (List.replicate 600 c1_wait)
      = some { c1_collected with power_up_spawn_timer := 600 } := by
    have h := Game.runTicks_replicate_noop 600 c1_collected.snake (5, 5) 0 0 false "Normal"
      default_high_scores 1 PowerUpType.SPEED (by decide) (by with_unfolding_all decide)
      (by decide)
    exact h
  refine ⟨{ c1_collected with power_up_spawn_timer := 600 }, ?_, rfl, rfl⟩
  unfold c1_trace
  rw [Game.runTicks_append _ _ _ _ h1]
  simp only [Game.runTicks]
  rw [h2]
  exact h3

/-- Claim C10: food relocation rejects only snake-body cells.  In this
reachable trace a Shield power-up spawns at `(18, 16)` at frame 900, the
snake eats the food the same frame, and the relocation lands the food exactly
on the live, uncollected power-up: both collectibles occupy one cell. -/
theorem c10_food_relocates_onto_power_up :
    ∃ gf : Game, Game.runTicks c10_start c10_trace = some gf ∧
      gf.food = (18, 16) ∧
      (∃ pu, pu ∈ gf.power_ups ∧ pu.position = gf.food) := by
  have h1 : Game.runTicks c10_start (List.replicate 899 c10_noop)
      = some { c10_start with power_up_spawn_timer := 899 } := by
    have h := Game.runTicks_replicate_noop 899 (Snake.init 0) (17, 16) 0 0 false "Normal"
      default_high_scores 0 PowerUpType.SHIELD (by decide) (by with_unfolding_all decide)
      (by decide)
    exact h
  have h2 : Game.tick { c10_start with power_up_spawn_timer := 899 } c10_last
      = some c10_final := by
    with_unfolding_all decide
  refine ⟨c10_final, ?_, rfl, ⟨PowerUp.init (18, 16) PowerUpType.SHIELD, by decide, rfl⟩⟩
  unfold c10_trace
  rw [Game.runTicks_append _ _ _ _ h1]
  simp only [Game.runTicks]
  rw [h2]
